import Mathlib

/-! Overview
Verification of the KVR authentication/authorization core.

The definitions below are a shallow embedding of the JavaScript source:

* `src/backend/src/config/auth.config.js` — role mapping (`mapTahRole`, `TAH_ROLE_MAPPING`);
* the TAH middleware (`isTahToken`, `fetchJwks`, `getSigningKey`, `jwkToPem`);
* the API-key middleware (`extractApiKey`, `validateApiKey`, `updateApiKeyUsage`,
  `authenticateHybrid`);
* `src/backend/src/middleware/auth.middleware.js` (`validateLocalToken`, `authenticate`,
  `optionalAuth`, `checkPermission`) and the API-key routes (`generateApiKey`,
  list/get/stats handlers).

JavaScript strings are modelled as Lean `String`s; where the source relies on
character-level operations (`startsWith`, `split`, `substring`, case mapping)
we use explicit functions over the underlying character lists so that every
definition is executable and kernel-reducible.  Timestamps (`Date`) are
epoch milliseconds as `Nat`.  Database and network effects are passed in as
explicit function arguments (lookups) or explicit state (JWKS cache), and the
updated state is returned.
-/

namespace KVR

/-- JavaScript `s.startsWith(pre)` on strings, via the character lists. -/
def jsStartsWith (s pre : String) : Bool :=
  pre.data.isPrefixOf s.data

/-- JavaScript `s.substring(n)` (drop the first `n` characters). -/
def jsDrop (s : String) (n : Nat) : String :=
  String.mk (s.data.drop n)

/-- Split a character list at every occurrence of `sep`, JavaScript
`split` semantics: the empty list yields one empty field. -/
def splitCh (sep : Char) : List Char → List (List Char)
  | [] => [[]]
  | c :: cs =>
    if c = sep then [] :: splitCh sep cs
    else
      match splitCh sep cs with
      | [] => [[c]]
      | h :: t => (c :: h) :: t

/-- JavaScript `s.split(sep)` for a one-character separator. -/
def jsSplit (s : String) (sep : Char) : List String :=
  (splitCh sep s.data).map String.mk

/-- JavaScript truthiness of an optional string header/claim:
`undefined`/`null` and the empty string are falsy (`x || null`). -/
def jsHeader (h : Option String) : Option String :=
  match h with
  | some s => if s = "" then none else some s
  | none => none

/-- JavaScript `a || b` for two optional strings (empty string is falsy). -/
def jsOrOpt (a b : Option String) : Option String :=
  match a with
  | some s => if s = "" then b else some s
  | none => b

/-- JavaScript `a || b` where `b` is a definite string. -/
def jsStrOr (a : Option String) (b : String) : String :=
  match a with
  | some s => if s = "" then b else s
  | none => b

/-! Component: Role mapping (`auth.config.js`)

JS strings are modelled here as lists of code points so that the
case-insensitive table lookup of `mapTahRole` is fully computable and its
algebra can be proved.  `toLowerCase`/`toUpperCase` map one code point to a
list of code points (upper-casing `ß` yields `SS`); the mappings are
faithful on Basic Latin and Latin-1 — which covers every key of the mapping
table, including the accented Portuguese entries — and on the further case
pairs named below (`ſ`→`S`, `Ÿ`/`ÿ`, `Μ`/`μ`, Kelvin `K`→`k`), the code
points reachable in the theorems of this development; `trim` implements the
full WhiteSpace/LineTerminator set. -/

/-- Code-point sequence of a JavaScript string. -/
def ofStr (s : String) : List Nat :=
  s.data.map Char.toNat

/-- JavaScript `toLowerCase` of one code point, as the list of code points
it produces.  Faithful on Basic Latin and Latin-1 (the `+32` shifts), and on
the case pairs reachable from them under `toUpperCase`: `Ÿ`(U+0178)→`ÿ`,
`Μ`(U+039C)→`μ`(U+03BC), and the Kelvin sign `K`(U+212A)→`k`; every other
code point is left unchanged. -/
def lowerChM (n : Nat) : List Nat :=
  if (65 ≤ n ∧ n ≤ 90) ∨ (192 ≤ n ∧ n ≤ 222 ∧ n ≠ 215) then [n + 32]
  else if n = 0x178 then [0xFF]
  else if n = 0x39C then [0x3BC]
  else if n = 0x212A then [0x6B]
  else [n]

/-- JavaScript `toUpperCase` of one code point, as the list of code points
it produces.  Faithful on Basic Latin and Latin-1 including the special
cases `ß`(U+00DF)→`SS`, `ÿ`(U+00FF)→`Ÿ`(U+0178), `µ`(U+00B5)→`Μ`(U+039C),
and additionally on the long s `ſ`(U+017F)→`S` and `μ`(U+03BC)→`Μ`; every
other code point is left unchanged. -/
def upperChM (n : Nat) : List Nat :=
  if (97 ≤ n ∧ n ≤ 122) ∨ (224 ≤ n ∧ n ≤ 254 ∧ n ≠ 247) then [n - 32]
  else if n = 0xDF then [83, 83]
  else if n = 0xFF then [0x178]
  else if n = 0xB5 then [0x39C]
  else if n = 0x17F then [83]
  else if n = 0x3BC then [0x39C]
  else [n]

/-- Whitespace test of JavaScript `trim` (the WhiteSpace and LineTerminator
productions). -/
def isWsCh (n : Nat) : Bool :=
  n = 32 || n = 9 || n = 10 || n = 11 || n = 12 || n = 13 || n = 160 ||
  n = 0x1680 || (0x2000 ≤ n && n ≤ 0x200A) || n = 0x2028 || n = 0x2029 ||
  n = 0x202F || n = 0x205F || n = 0x3000 || n = 0xFEFF

/-- JavaScript `toLowerCase` on a whole string. -/
def lowerJs : List Nat → List Nat
  | [] => []
  | n :: r => lowerChM n ++ lowerJs r

/-- JavaScript `toUpperCase` on a whole string. -/
def upperJs : List Nat → List Nat
  | [] => []
  | n :: r => upperChM n ++ upperJs r

/-- JavaScript `trim`. -/
def trimJs (r : List Nat) : List Nat :=
  ((r.dropWhile isWsCh).reverse.dropWhile isWsCh).reverse

/-- All code points of the string lie in the ASCII range, where the
JavaScript case mappings are exactly the `+-32` shifts. -/
def asciiStr (r : List Nat) : Bool :=
  r.all (fun n => n < 128)

/-- Association-list lookup (JS object own-property access). -/
def tableLookup (t : List (List Nat × List Nat)) (k : List Nat) : Option (List Nat) :=
  match t with
  | [] => none
  | p :: rest => if p.1 = k then some p.2 else tableLookup rest k

/-- Source `TAH_ROLE_MAPPING` from `auth.config.js`, keys lower-case. -/
def TAH_ROLE_MAPPING : List (List Nat × List Nat) :=
  [ (ofStr "administrador", ofStr "ADMIN"),
    (ofStr "proprietario", ofStr "OWNER"),
    (ofStr "proprietário", ofStr "OWNER"),
    (ofStr "desenvolvedor", ofStr "DEVELOPER"),
    (ofStr "usuario", ofStr "USER"),
    (ofStr "usuário", ofStr "USER"),
    (ofStr "visualizador", ofStr "VIEWER"),
    (ofStr "gerente", ofStr "ADMIN"),
    (ofStr "gestor", ofStr "ADMIN"),
    (ofStr "admin", ofStr "ADMIN"),
    (ofStr "administrator", ofStr "ADMIN"),
    (ofStr "superadmin", ofStr "ADMIN"),
    (ofStr "super_admin", ofStr "ADMIN"),
    (ofStr "super-admin", ofStr "ADMIN"),
    (ofStr "sysadmin", ofStr "ADMIN"),
    (ofStr "owner", ofStr "OWNER"),
    (ofStr "developer", ofStr "DEVELOPER"),
    (ofStr "dev", ofStr "DEVELOPER"),
    (ofStr "user", ofStr "USER"),
    (ofStr "viewer", ofStr "VIEWER"),
    (ofStr "member", ofStr "USER"),
    (ofStr "editor", ofStr "DEVELOPER"),
    (ofStr "manager", ofStr "ADMIN"),
    (ofStr "moderator", ofStr "ADMIN") ]

/-- Source `mapTahRole`: falsy input gives `USER`; otherwise look the
lower-cased, trimmed role up in the table, defaulting to the upper-cased
input when absent. -/
def mapTahRole (tahRole : List Nat) : List Nat :=
  if tahRole = [] then ofStr "USER"
  else
    let normalizedRole := trimJs (lowerJs tahRole)
    match tableLookup TAH_ROLE_MAPPING normalizedRole with
    | some v => v
    | none => upperJs tahRole

/-! Component: Token classifier (`isTahToken`, first TAH middleware variant) -/

/-- Audience claim of a decoded JWT: absent, scalar, or array. -/
inductive AudClaim where
  | undef : AudClaim
  | str : String → AudClaim
  | arr : List String → AudClaim
deriving DecidableEq, Repr

/-- The part of the unverified JWT payload `isTahToken` inspects. -/
structure TahPayload where
  iss : Option String
  aud : AudClaim
deriving DecidableEq, Repr

/-- TAH configuration values used by the classifier. -/
structure TahConfig where
  issuer : String
  audience : String
deriving DecidableEq, Repr

/-- Source `isTahToken`.  The argument is the result of
`jwt.decode(token, complete := true)`: `none` when decoding fails.  The
source returns `true` when the issuer matches, or when the audience claim is
an array containing the configured audience; every other shape gives
`false`. -/
def isTahToken (cfg : TahConfig) (decoded : Option TahPayload) : Bool :=
  match decoded with
  | none => false
  | some p =>
    if p.iss = some cfg.issuer then true
    else
      match p.aud with
      | .arr l => l.contains cfg.audience
      | _ => false

/-- Modelled from the spec claim wording for C4: true when the issuer
matches or the audience claim — scalar or list — contains the configured
audience. -/
def claimLooksExternal (cfg : TahConfig) (decoded : Option TahPayload) : Bool :=
  match decoded with
  | none => false
  | some p =>
    decide (p.iss = some cfg.issuer) ||
      (match p.aud with
       | .str s => s == cfg.audience
       | .arr l => l.contains cfg.audience
       | .undef => false)

/-! Component: JWKS key resolver (`fetchJwks`, `getSigningKey`, `jwkToPem`)

The module-level cache (`jwksCache`, `jwksCacheExpiry`) is explicit state;
the network fetch is an explicit `Except` argument describing what the
remote endpoint would return.  Each operation also reports whether a fetch
was attempted (the third component), so cache-hit behaviour is observable. -/

/-- One JWKS key as consumed by the source. -/
structure Jwk where
  kid : String
  x5c : List String
  kty : String
  n : Option String
  e : Option String
deriving DecidableEq, Repr

/-- A fetched JWKS document. -/
structure Jwks where
  keys : List Jwk
deriving DecidableEq, Repr

/-- The process-wide cache: last fetched document and its expiry instant. -/
structure JwksState where
  cache : Option Jwks
  expiry : Nat
deriving DecidableEq, Repr

/-- Verifier-usable key material (the result of `jwkToPem` or the static
configured key). -/
inductive KeyMaterial where
  | certPem : String → KeyMaterial
  | rsaPub : String → String → KeyMaterial
  | cfgKey : String → KeyMaterial
deriving DecidableEq, Repr

/-- RSA branch of `jwkToPem`: requires `kty = RSA` with truthy `n`, `e`. -/
def jwkRsaPart (j : Jwk) : Except String KeyMaterial :=
  if j.kty = "RSA" then
    match j.n, j.e with
    | some nn, some ee =>
      if nn = "" ∨ ee = "" then .error ("Unsupported key type: " ++ j.kty)
      else .ok (.rsaPub nn ee)
    | _, _ => .error ("Unsupported key type: " ++ j.kty)
  else .error ("Unsupported key type: " ++ j.kty)

/-- Source `jwkToPem`: use the first certificate of `x5c` when truthy,
else construct a public key from an RSA modulus/exponent pair, else throw. -/
def jwkToPem (j : Jwk) : Except String KeyMaterial :=
  match j.x5c with
  | c :: _ => if c = "" then jwkRsaPart j else .ok (.certPem c)
  | [] => jwkRsaPart j

/-- Fetch attempt of `fetchJwks` (the `try` block): on success replace the
cache and expiry; on failure fall back to a stale cache when one exists,
otherwise rethrow. -/
def fetchJwksGo (fetched : Except String Jwks) (ttlSec now : Nat) (st : JwksState) :
    Except String Jwks × JwksState × Bool :=
  match fetched with
  | .ok j => (.ok j, ⟨some j, now + ttlSec * 1000⟩, true)
  | .error e =>
    match st.cache with
    | some c => (.ok c, st, true)
    | none => (.error e, st, true)

/-- Source `fetchJwks`: return the cached document while it is still valid,
otherwise attempt the fetch. -/
def fetchJwks (fetched : Except String Jwks) (ttlSec now : Nat) (st : JwksState) :
    Except String Jwks × JwksState × Bool :=
  match st.cache with
  | some c =>
    if now < st.expiry then (.ok c, st, false)
    else fetchJwksGo fetched ttlSec now st
  | none => fetchJwksGo fetched ttlSec now st

/-- Source `getSigningKey`: static configured key bypasses JWKS entirely;
otherwise resolve the key id in the (possibly refreshed) key set. -/
def getSigningKey (staticKey : Option String) (kid : String)
    (fetched : Except String Jwks) (ttlSec now : Nat) (st : JwksState) :
    Except String KeyMaterial × JwksState × Bool :=
  match staticKey with
  | some s => (.ok (.cfgKey s), st, false)
  | none =>
    match fetchJwks fetched ttlSec now st with
    | (.error e, st1, f) => (.error e, st1, f)
    | (.ok j, st1, f) =>
      match j.keys.find? (fun k => k.kid == kid) with
      | none => (.error ("Signing key not found: " ++ kid), st1, f)
      | some jk => (jwkToPem jk, st1, f)

/-! Component: Local token validator and unified middleware (`auth.middleware.js`) -/

/-- Claims of a decoded local JWT, with every legacy/alternate field the
source consults.  `none` models an absent (`undefined`) claim; note that a
present-but-empty `roles` array is distinct from an absent one. -/
structure LocalClaims where
  userId : Option String
  id : Option String
  email : Option String
  fullName : Option String
  name : Option String
  role : Option String
  roles : Option (List String)
  perfis : Option (List String)
  orgId : Option String
  orgIds : Option (List String)
  orgRole : Option String
deriving DecidableEq, Repr

/-- The normalized `req.user` object the middleware attaches. -/
structure UserCtx where
  id : Option String
  userId : Option String
  email : Option String
  name : Option String
  fullName : Option String
  role : String
  roles : List String
  perfis : List String
  orgId : Option String
  orgIds : List String
  orgRole : Option String
  authSource : String
deriving DecidableEq, Repr

/-- JS `decoded.roles || (decoded.role ? [decoded.role] : ['USER'])`:
a present `roles` array is truthy even when empty. -/
def jsRoles (roles : Option (List String)) (role : Option String) : List String :=
  match roles with
  | some l => l
  | none =>
    match role with
    | some r => if r = "" then ["USER"] else [r]
    | none => ["USER"]

/-- Claim-to-user mapping of source `validateLocalToken` (its body after
`verifyAccessToken` succeeded). -/
def localUserOf (d : LocalClaims) : UserCtx :=
  { id := jsOrOpt d.userId d.id
    userId := jsOrOpt d.userId d.id
    email := d.email
    name := jsOrOpt d.fullName d.name
    fullName := d.fullName
    role := jsStrOr d.role (jsStrOr (d.roles.bind List.head?) "USER")
    roles := jsRoles d.roles d.role
    perfis := d.perfis.getD []
    orgId := jsHeader d.orgId
    orgIds := d.orgIds.getD []
    orgRole := jsHeader d.orgRole
    authSource := "local" }

/-- Source `validateLocalToken`: verify the token with the local secret
(`verify` models `verifyAccessToken`, which throws on any problem) and
extract the claims. -/
def validateLocalToken (verify : String → Except String LocalClaims) (token : String) :
    Except String UserCtx :=
  (verify token).map localUserOf

/-- Source `validateToken`: route the token to the TAH validator when TAH is
enabled and the classifier fires, else to the local validator when local
auth is enabled, else fail. -/
def validateToken (tahEnabled localEnabled : Bool)
    (isTah : String → Bool) (validateTah : String → Except String UserCtx)
    (verify : String → Except String LocalClaims) (token : String) :
    Except String UserCtx :=
  if tahEnabled && isTah token then validateTah token
  else if localEnabled then validateLocalToken verify token
  else .error "No valid authentication method available"

/-- Source `extractToken`: the Bearer token of the Authorization header. -/
def extractToken (authorization : Option String) : Option String :=
  match authorization with
  | some a => if jsStartsWith a "Bearer " then some (jsDrop a 7) else none
  | none => none

/-- Terminal outcome of the `authenticate` middleware. -/
inductive AuthResult where
  | okUser : UserCtx → AuthResult
  | halt : Nat → String → AuthResult
deriving DecidableEq, Repr

/-- Source `authenticate`: no token → dev bypass when enabled, else 401;
with a token, validate it and map any validator error to 401. -/
def authenticate (tahEnabled localEnabled : Bool)
    (isTah : String → Bool) (validateTah : String → Except String UserCtx)
    (verify : String → Except String LocalClaims)
    (bypassEnabled : Bool) (devUser : UserCtx)
    (authorization : Option String) : AuthResult :=
  match extractToken authorization with
  | none =>
    if bypassEnabled then .okUser devUser
    else .halt 401 "No token provided"
  | some t =>
    match validateToken tahEnabled localEnabled isTah validateTah verify t with
    | .ok u => .okUser u
    | .error _ => .halt 401 "Invalid or expired token"

/-- Source `optionalAuth`: validate when a token is present (continuing
without a user on failure); attach the dev user only when no token exists
and the bypass flag is set. -/
def optionalAuth (tahEnabled localEnabled : Bool)
    (isTah : String → Bool) (validateTah : String → Except String UserCtx)
    (verify : String → Except String LocalClaims)
    (bypassEnabled : Bool) (devUser : UserCtx)
    (authorization : Option String) : Option UserCtx :=
  match extractToken authorization with
  | some t =>
    match validateToken tahEnabled localEnabled isTah validateTah verify t with
    | .ok u => some u
    | .error _ => none
  | none => if bypassEnabled then some devUser else none

/-! Component: Permission guards (`checkPermission`, `checkTahPermission`) -/

/-- JS `featureId.split('.')[0]`. -/
def categoryOf (featureId : String) : String :=
  (jsSplit featureId '.').headD featureId

/-- Per-permission test of `checkPermission` in `auth.middleware.js`. -/
def permMatchMw (featureId action p : String) : Bool :=
  p == "*" || p == "*:*" ||
  p == featureId ++ ":*" ||
  p == featureId ++ ":" ++ action ||
  p == categoryOf featureId ++ ":*" ||
  p == categoryOf featureId ++ ":" ++ action

/-- Source `checkPermission` (middleware variant), as the predicate deciding
whether the guard passes for a request whose user is present: non-TAH
sources skip the check. -/
def checkPermission (authSource : String) (permissions : List String)
    (featureId action : String) : Bool :=
  if authSource ≠ "tah" then true
  else permissions.any (permMatchMw featureId action)

/-- Per-permission test of `checkTahPermission` in the TAH middleware: the
permission is split at ':' and a wildcard in either component short-circuits
before the exact and category comparisons. -/
def permMatchTah (featureId action p : String) : Bool :=
  let parts := jsSplit p ':'
  let resource := parts.headD ""
  let allowedAction := parts[1]?
  resource == "*" || allowedAction == some "*" ||
  p == featureId ++ ":" ++ action ||
  p == featureId ++ ":*" ||
  (resource == categoryOf featureId &&
    (allowedAction == some "*" || allowedAction == some action))

/-- Source `checkTahPermission`, as the predicate deciding whether the guard
passes for a request whose user is present. -/
def checkTahPermission (authSource : String) (permissions : List String)
    (featureId action : String) : Bool :=
  if authSource ≠ "tah" then true
  else permissions.any (permMatchTah featureId action)

/-- Modelled from the spec claim wording for C7: the permission set must
contain the global wildcard, the exact pair, the feature wildcard, or a
category-level exact/wildcard entry — and nothing else grants access. -/
def claimPermAllows (authSource : String) (permissions : List String)
    (featureId action : String) : Bool :=
  if authSource ≠ "tah" then true
  else
    permissions.any fun p =>
      p == "*" || p == "*:*" ||
      p == featureId ++ ":" ++ action ||
      p == featureId ++ ":*" ||
      p == categoryOf featureId ++ ":" ++ action ||
      p == categoryOf featureId ++ ":*"

/-! Component: API keys: issuance, extraction, validation, usage
(`api-keys` routes and the API-key middleware) -/

/-- A stored `apiKey` row with every field the embedded code touches. -/
structure ApiKey where
  id : String
  userId : String
  orgId : Option String
  name : String
  description : Option String
  keyHash : String
  keyPfx : String
  scopes : List String
  workflowIds : List String
  projectIds : List String
  rateLimit : Nat
  rateLimitUsed : Nat
  rateLimitReset : Option Nat
  usageCount : Nat
  lastUsedAt : Option Nat
  lastUsedIp : Option String
  expiresAt : Option Nat
  isActive : Bool
  createdAt : Nat
  updatedAt : Nat
deriving DecidableEq, Repr

/-- Source `generateApiKey` from the api-keys routes: the key is the fixed
literal `kvr_` followed by 32 random bytes rendered as 64 hex characters
(the randomness is the argument). -/
def generateApiKey (randomHex : String) : String :=
  "kvr_" ++ randomHex

/-- Source `getKeyPrefix`: the first 12 characters of the raw key. -/
def getKeyPfx (key : String) : String :=
  String.mk (key.data.take 12)

/-- The request headers the API-key middleware consults. -/
structure HybridReq where
  xApiKey : Option String
  authorization : Option String
  xOrganizationId : Option String
deriving DecidableEq, Repr

/-- Key-prefix conventions accepted by the API-key middleware. -/
def validPfxs : List String :=
  [ "orc_", "ak_", "sk_" ]

/-- Bearer-header part of `extractApiKey`. -/
def extractApiKeyBearer (req : HybridReq) : Option String :=
  match req.authorization with
  | some a =>
    if jsStartsWith a "Bearer " then
      let token := jsDrop a 7
      if validPfxs.any (fun p => jsStartsWith token p) then some token else none
    else none
  | none => none

/-- Source `extractApiKey`: accept the `X-API-Key` header, or a Bearer
token, but only when the value begins with a recognized prefix; otherwise
report no API key present. -/
def extractApiKey (req : HybridReq) : Option String :=
  match req.xApiKey with
  | some k =>
    if validPfxs.any (fun p => jsStartsWith k p) then some k
    else extractApiKeyBearer req
  | none => extractApiKeyBearer req

/-- Result object of `validateApiKey` (`valid`, `error`, `rateLimited`). -/
structure VRes where
  valid : Bool
  error : Option String
  rateLimited : Bool
deriving DecidableEq, Repr

/-- Source `validateApiKey` after the hash lookup found a row: the
short-circuiting check sequence.  The returned record is the row as left in
the store (the rate-limit window reset is persisted before the usage
check). -/
def validateApiKeyRec (k : ApiKey) (requiredScope resourceId requestedOrgId : Option String)
    (now : Nat) : VRes × ApiKey :=
  if k.isActive = false then
    (⟨false, some "API key is inactive", false⟩, k)
  else if (match k.expiresAt with | some t => decide (t < now) | none => false) then
    (⟨false, some "API key has expired", false⟩, k)
  else if (match requestedOrgId, k.orgId with
           | some ro, some o => decide (o ≠ ro)
           | _, _ => false) then
    (⟨false, some "API key does not belong to the requested organization", false⟩, k)
  else
    let k1 :=
      if (match k.rateLimitReset with | some t => decide (t < now) | none => false) then
        { k with rateLimitUsed := 0, rateLimitReset := some (now + 3600000) }
      else k
    if k1.rateLimit ≤ k1.rateLimitUsed then
      (⟨false, some "Rate limit exceeded", true⟩, k1)
    else if (match requiredScope with
             | some s => !(k1.scopes.contains s)
             | none => false) then
      (⟨false, some ("Missing required scope: " ++ requiredScope.getD ""), false⟩, k1)
    else if (match resourceId with
             | some r => !(k1.workflowIds = []) && !(k1.workflowIds.contains r)
             | none => false) then
      (⟨false, some "API key does not have access to this workflow", false⟩, k1)
    else
      (⟨true, none, false⟩, k1)

/-- Source `validateApiKey` including the hash lookup: `hashFn` models the
SHA-256 hex digest and `byHash` the store lookup. -/
def validateApiKey (hashFn : String → String) (byHash : String → Option ApiKey)
    (key : String) (requiredScope resourceId requestedOrgId : Option String)
    (now : Nat) : VRes × Option ApiKey :=
  match byHash (hashFn key) with
  | none => (⟨false, some "Invalid API key", false⟩, none)
  | some k =>
    let r := validateApiKeyRec k requiredScope resourceId requestedOrgId now
    (r.1, some r.2)

/-- Source `updateApiKeyUsage`: bump both counters, stamp the last use, and
keep the stored reset instant (initializing it one hour out when absent). -/
def updateApiKeyUsage (k : ApiKey) (now : Nat) (ip : String) : ApiKey :=
  { k with
    usageCount := k.usageCount + 1
    rateLimitUsed := k.rateLimitUsed + 1
    lastUsedAt := some now
    lastUsedIp := some ip
    rateLimitReset := some (k.rateLimitReset.getD (now + 3600000)) }

/-- One authorized call on a stored key: validate (with no scope, resource
or organization constraint) and record the usage, as the hybrid middleware
does on a successful API-key authentication. -/
def usageRound (now : Nat) (ip : String) (k : ApiKey) : ApiKey :=
  updateApiKeyUsage (validateApiKeyRec k none none none now).2 now ip

/-- The user row consulted by the hybrid middleware on the API-key path. -/
structure HUser where
  id : String
  email : String
  roles : List String
  fullName : Option String
deriving DecidableEq, Repr

/-- The `req.user` object `authenticateHybrid` attaches. -/
structure ReqUser where
  id : Option String
  email : Option String
  fullName : Option String
  role : Option String
  roles : List String
  perfis : List String
  orgId : Option String
  orgIds : List String
  orgRole : Option String
deriving DecidableEq, Repr

/-- Terminal outcome of `authenticateHybrid`: success via API key (with the
stored record as updated), success via JWT, or a rejection (429 carries a
retry-after hint). -/
inductive HybridOutcome where
  | okApi : ReqUser → ApiKey → HybridOutcome
  | okJwt : ReqUser → HybridOutcome
  | reject : Nat → String → HybridOutcome
  | rejectRetry : Nat → String → Nat → HybridOutcome
deriving DecidableEq, Repr

/-- JS `user.roles[0] || 'USER'`. -/
def jsHeadRole (l : List String) : String :=
  match l with
  | [] => "USER"
  | r :: _ => if r = "" then "USER" else r

/-- The `req.user` record built on the JWT branch of `authenticateHybrid`. -/
def hybridJwtUserCore (d : LocalClaims) (userId : Option String)
    (tokenOrgIds : List String) (effectiveOrgId : Option String) : ReqUser :=
  { id := userId
    email := d.email
    fullName := d.fullName
    role := d.role
    roles := jsRoles d.roles d.role
    perfis := d.perfis.getD []
    orgId := effectiveOrgId
    orgIds := tokenOrgIds
    orgRole := d.orgRole }

/-- JWT branch of `authenticateHybrid` after `verifyAccessToken` succeeded:
the multi-tenancy cross-check against `X-Organization-Id` and the
construction of `req.user`. -/
def hybridJwtUser (d : LocalClaims) (requestedOrgId : Option String) : HybridOutcome :=
  let userId := jsOrOpt d.userId d.id
  let tokenOrgIds := d.orgIds.getD []
  match requestedOrgId with
  | some ro =>
    if tokenOrgIds ≠ [] then
      if !(tokenOrgIds.contains ro) then
        .reject 403 "Access denied to requested organization"
      else .okJwt (hybridJwtUserCore d userId tokenOrgIds (some ro))
    else .okJwt (hybridJwtUserCore d userId tokenOrgIds d.orgId)
  | none => .okJwt (hybridJwtUserCore d userId tokenOrgIds d.orgId)

/-- Source `authenticateHybrid`: try API-key extraction and validation
first (with 401/429 rejections and the owner lookup), otherwise fall back
to Bearer-JWT validation with the organization cross-check. -/
def authenticateHybrid (scope resourceId : Option String) (req : HybridReq)
    (hashFn : String → String) (byHash : String → Option ApiKey)
    (findUser : String → Option HUser)
    (verifyTok : String → Except String LocalClaims) (now : Nat) (ip : String) :
    HybridOutcome :=
  match extractApiKey req with
  | some apiKey =>
    let requestedOrgId := jsHeader req.xOrganizationId
    (match byHash (hashFn apiKey) with
     | none => .reject 401 "Invalid API key"
     | some kr =>
       let v := validateApiKeyRec kr scope resourceId requestedOrgId now
       if v.1.valid = false then
         if v.1.rateLimited then .rejectRetry 429 (v.1.error.getD "") 3600
         else .reject 401 (v.1.error.getD "")
       else
         match findUser v.2.userId with
         | none => .reject 401 "API key owner not found"
         | some u =>
           let apiKeyOrgId := jsOrOpt v.2.orgId requestedOrgId
           .okApi
             { id := some u.id
               email := some u.email
               fullName := u.fullName
               role := some (jsHeadRole u.roles)
               roles := u.roles
               perfis := []
               orgId := apiKeyOrgId
               orgIds := match apiKeyOrgId with | some o => [o] | none => []
               orgRole := some "MEMBER" }
             (updateApiKeyUsage v.2 now ip))
  | none =>
    match req.authorization with
    | some a =>
      if jsStartsWith a "Bearer " then
        match verifyTok (jsDrop a 7) with
        | .ok d => hybridJwtUser d (jsHeader req.xOrganizationId)
        | .error _ => .reject 401 "Invalid or expired token"
      else .reject 401 "No authentication provided. Use X-API-Key header or Bearer token."
    | none => .reject 401 "No authentication provided. Use X-API-Key header or Bearer token."

/-! Component: API-key read endpoints (list, get by id, stats) -/

/-- Tenant context extracted from an authenticated request. -/
structure TenantCtx where
  userId : Option String
  orgId : Option String
deriving DecidableEq, Repr

/-- Source `buildTenantFilter` applied to a row: org scoping wins over user
scoping; with neither, every row matches. -/
def tenantMatch (ctx : TenantCtx) (k : ApiKey) : Bool :=
  match ctx.orgId with
  | some o => k.orgId == some o
  | none =>
    match ctx.userId with
    | some u => k.userId == u
    | none => true

/-- Row shape selected by the list handler (no `keyHash`). -/
structure ListItem where
  id : String
  name : String
  description : Option String
  keyPfx : String
  scopes : List String
  workflowIds : List String
  rateLimit : Nat
  usageCount : Nat
  lastUsedAt : Option Nat
  lastUsedIp : Option String
  expiresAt : Option Nat
  isActive : Bool
  createdAt : Nat
  updatedAt : Nat
deriving DecidableEq, Repr

/-- The list handler's `select` projection. -/
def listSelect (k : ApiKey) : ListItem :=
  ⟨k.id, k.name, k.description, k.keyPfx, k.scopes, k.workflowIds, k.rateLimit,
   k.usageCount, k.lastUsedAt, k.lastUsedIp, k.expiresAt, k.isActive,
   k.createdAt, k.updatedAt⟩

/-- Insert into a list sorted by `createdAt` descending (the handler's
`orderBy`). -/
def insertByCreated (k : ApiKey) : List ApiKey → List ApiKey
  | [] => [k]
  | x :: xs =>
    if x.createdAt < k.createdAt then k :: x :: xs
    else x :: insertByCreated k xs

/-- Sort rows by `createdAt` descending. -/
def sortByCreatedDesc (l : List ApiKey) : List ApiKey :=
  l.foldr insertByCreated []

/-- Source `GET /api-keys` handler: tenant filter, active filter unless
`includeInactive`, newest first, `keyHash`-free projection. -/
def listApiKeys (ctx : TenantCtx) (includeInactive : Bool) (store : List ApiKey) :
    List ListItem :=
  (sortByCreatedDesc
    (store.filter (fun k => tenantMatch ctx k && (includeInactive || k.isActive)))).map
    listSelect

/-- Row shape selected by the get-by-id handler (no `keyHash`). -/
structure GetItem where
  id : String
  name : String
  description : Option String
  keyPfx : String
  scopes : List String
  workflowIds : List String
  rateLimit : Nat
  rateLimitUsed : Nat
  rateLimitReset : Option Nat
  usageCount : Nat
  lastUsedAt : Option Nat
  lastUsedIp : Option String
  expiresAt : Option Nat
  isActive : Bool
  createdAt : Nat
  updatedAt : Nat
deriving DecidableEq, Repr

/-- The get-by-id handler's `select` projection. -/
def getSelect (k : ApiKey) : GetItem :=
  ⟨k.id, k.name, k.description, k.keyPfx, k.scopes, k.workflowIds, k.rateLimit,
   k.rateLimitUsed, k.rateLimitReset, k.usageCount, k.lastUsedAt, k.lastUsedIp,
   k.expiresAt, k.isActive, k.createdAt, k.updatedAt⟩

/-- Source `GET /api-keys/:id` handler: `findFirst` by id within the tenant
filter; `none` models the 404. -/
def getApiKey (ctx : TenantCtx) (id : String) (store : List ApiKey) : Option GetItem :=
  (store.find? (fun k => k.id == id && tenantMatch ctx k)).map getSelect

/-- Response body of the stats handler (no `keyHash`). -/
structure StatsResp where
  id : String
  name : String
  usageCount : Nat
  rateLimit : Nat
  rateLimitUsed : Nat
  rateLimitReset : Option Nat
  lastUsedAt : Option Nat
  lastUsedIp : Option String
  createdAt : Nat
  rateLimitRemaining : Nat
  rateLimitResetIn : Option Nat
deriving DecidableEq, Repr

/-- The stats handler's computation over the selected row. -/
def statsOf (k : ApiKey) (now : Nat) : StatsResp :=
  { id := k.id
    name := k.name
    usageCount := k.usageCount
    rateLimit := k.rateLimit
    rateLimitUsed := k.rateLimitUsed
    rateLimitReset := k.rateLimitReset
    lastUsedAt := k.lastUsedAt
    lastUsedIp := k.lastUsedIp
    createdAt := k.createdAt
    rateLimitRemaining :=
      if (match k.rateLimitReset with | some t => decide (now < t) | none => false) then
        k.rateLimit - k.rateLimitUsed
      else k.rateLimit
    rateLimitResetIn := k.rateLimitReset.map (fun t => t - now) }

/-- Source `GET /api-keys/:id/stats` handler. -/
def statsApiKey (ctx : TenantCtx) (id : String) (now : Nat) (store : List ApiKey) :
    Option StatsResp :=
  (store.find? (fun k => k.id == id && tenantMatch ctx k)).map (fun k => statsOf k now)

/-- Rewrite the stored hash of every row by an arbitrary function: two
stores related this way agree on everything except `keyHash`. -/
def setHash (hf : ApiKey → String) (k : ApiKey) : ApiKey :=
  { k with keyHash := hf k }

/-! Helper lemmas -/

theorem upperChM_ne_nil (n : Nat) : upperChM n ≠ [] := by
  simp only [upperChM]
  split_ifs <;> simp

theorem lowerJs_append (a b : List Nat) : lowerJs (a ++ b) = lowerJs a ++ lowerJs b := by
  induction a with
  | nil => rfl
  | cons x xs ih => simp [lowerJs, ih, List.append_assoc]

theorem upperJs_append (a b : List Nat) : upperJs (a ++ b) = upperJs a ++ upperJs b := by
  induction a with
  | nil => rfl
  | cons x xs ih => simp [upperJs, ih, List.append_assoc]

theorem lowerJs_upperChM_ascii (n : Nat) (hn : n < 128) :
    lowerJs (upperChM n) = lowerChM n := by
  interval_cases n <;> decide

theorem upperJs_upperChM_ascii (n : Nat) (hn : n < 128) :
    upperJs (upperChM n) = upperChM n := by
  interval_cases n <;> decide

theorem lowerJs_upperJs_ascii (r : List Nat) (h : ∀ n ∈ r, n < 128) :
    lowerJs (upperJs r) = lowerJs r := by
  induction r with
  | nil => rfl
  | cons a t ih =>
    have ha : a < 128 := h a (List.mem_cons_self a t)
    have ht : ∀ n ∈ t, n < 128 := fun n hn => h n (List.mem_cons_of_mem a hn)
    simp only [upperJs, lowerJs]
    rw [lowerJs_append, lowerJs_upperChM_ascii a ha, ih ht]

theorem upperJs_upperJs_ascii (r : List Nat) (h : ∀ n ∈ r, n < 128) :
    upperJs (upperJs r) = upperJs r := by
  induction r with
  | nil => rfl
  | cons a t ih =>
    have ha : a < 128 := h a (List.mem_cons_self a t)
    have ht : ∀ n ∈ t, n < 128 := fun n hn => h n (List.mem_cons_of_mem a hn)
    simp only [upperJs]
    rw [upperJs_append, upperJs_upperChM_ascii a ha, ih ht]

theorem upperJs_ne_nil (r : List Nat) (h : r ≠ []) : upperJs r ≠ [] := by
  cases r with
  | nil => exact absurd rfl h
  | cons a t =>
    simp only [upperJs]
    intro hc
    exact upperChM_ne_nil a (List.append_eq_nil.mp hc).1

theorem tableLookup_mem {t : List (List Nat × List Nat)} {k v : List Nat}
    (h : tableLookup t k = some v) : ∃ key, (key, v) ∈ t := by
  induction t with
  | nil => simp [tableLookup] at h
  | cons p rest ih =>
    by_cases hpk : p.1 = k
    · simp only [tableLookup, if_pos hpk, Option.some.injEq] at h
      exact ⟨p.1, by rw [← h, Prod.mk.eta]; exact List.mem_cons_self _ _⟩
    · simp only [tableLookup, if_neg hpk] at h
      obtain ⟨key, hk⟩ := ih h
      exact ⟨key, List.mem_cons_of_mem _ hk⟩

theorem mapTahRole_table_values : ∀ p ∈ TAH_ROLE_MAPPING, mapTahRole p.2 = p.2 := by
  decide

theorem bool_or_perm (a b c d e f : Bool) :
    (a || b || c || d || e || f) = (a || b || d || c || f || e) := by
  cases a <;> cases b <;> cases c <;> cases d <;> cases e <;> cases f <;> rfl

theorem data_bearer_append (t : String) :
    ("Bearer " ++ t).data = 'B' :: 'e' :: 'a' :: 'r' :: 'e' :: 'r' :: ' ' :: t.data := by
  simp [String.data_append]

theorem extractToken_bearer (t : String) :
    extractToken (some ("Bearer " ++ t)) = some t := by
  simp only [extractToken, jsStartsWith, jsDrop, data_bearer_append]
  simp [List.isPrefixOf]

theorem data_kvr_append (s : String) :
    ("kvr_" ++ s).data = 'k' :: 'v' :: 'r' :: '_' :: s.data := by
  simp [String.data_append]

theorem kvr_no_valid_pfx (s : String) :
    validPfxs.any (fun p => jsStartsWith ("kvr_" ++ s) p) = false := by
  simp [validPfxs, jsStartsWith, data_kvr_append, List.isPrefixOf]

theorem bearer_startsWith (t : String) :
    jsStartsWith ("Bearer " ++ t) "Bearer " = true := by
  simp [jsStartsWith, data_bearer_append, List.isPrefixOf]

theorem jsDrop_bearer (t : String) : jsDrop ("Bearer " ++ t) 7 = t := by
  simp [jsDrop, data_bearer_append]

theorem extractApiKeyBearer_kvr (x o : Option String) (s : String) :
    extractApiKeyBearer ⟨x, some ("Bearer " ++ generateApiKey s), o⟩ = none := by
  simp [extractApiKeyBearer, generateApiKey, bearer_startsWith, jsDrop_bearer,
    kvr_no_valid_pfx]

theorem extractApiKey_kvr_header (s : String) (o : Option String) :
    extractApiKey ⟨some (generateApiKey s), none, o⟩ = none := by
  simp [extractApiKey, generateApiKey, kvr_no_valid_pfx, extractApiKeyBearer]

theorem extractApiKey_kvr_bearer (s : String) (o : Option String) :
    extractApiKey ⟨none, some ("Bearer " ++ generateApiKey s), o⟩ = none := by
  simp [extractApiKey, extractApiKeyBearer_kvr]

theorem validateApiKeyRec_pass (k : ApiKey) (now t : Nat)
    (hA : k.isActive = true) (hE : k.expiresAt = none)
    (hR : k.rateLimitReset = some t) (hlt : now < t)
    (hu : k.rateLimitUsed < k.rateLimit) :
    validateApiKeyRec k none none none now = (⟨true, none, false⟩, k) := by
  have h1 : ¬ (t < now) := by omega
  have h2 : ¬ (k.rateLimit ≤ k.rateLimitUsed) := by omega
  simp [validateApiKeyRec, hA, hE, hR, h1, h2]

theorem validateApiKeyRec_limit (k : ApiKey) (now t : Nat)
    (hA : k.isActive = true) (hE : k.expiresAt = none)
    (hR : k.rateLimitReset = some t) (hlt : now < t)
    (hu : k.rateLimit ≤ k.rateLimitUsed) :
    validateApiKeyRec k none none none now =
      (⟨false, some "Rate limit exceeded", true⟩, k) := by
  have h1 : ¬ (t < now) := by omega
  simp [validateApiKeyRec, hA, hE, hR, h1, hu]

theorem validateApiKeyRec_reset (k : ApiKey) (now t : Nat)
    (hA : k.isActive = true) (hE : k.expiresAt = none)
    (hR : k.rateLimitReset = some t) (hlt : t < now) (hpos : 0 < k.rateLimit) :
    validateApiKeyRec k none none none now =
      (⟨true, none, false⟩,
        { k with rateLimitUsed := 0, rateLimitReset := some (now + 3600000) }) := by
  have h3 : ¬ (k.rateLimit ≤ 0) := by omega
  simp [validateApiKeyRec, hA, hE, hR, hlt, h3]

theorem usageRound_props (k : ApiKey) (now t : Nat) (ip : String)
    (hA : k.isActive = true) (hE : k.expiresAt = none)
    (hR : k.rateLimitReset = some t) (hlt : now < t)
    (hu : k.rateLimitUsed < k.rateLimit) :
    (usageRound now ip k).isActive = true ∧
    (usageRound now ip k).expiresAt = none ∧
    (usageRound now ip k).rateLimitReset = some t ∧
    (usageRound now ip k).rateLimitUsed = k.rateLimitUsed + 1 ∧
    (usageRound now ip k).rateLimit = k.rateLimit := by
  rw [usageRound, validateApiKeyRec_pass k now t hA hE hR hlt hu]
  simp [updateApiKeyUsage, hR, hA, hE]

theorem setHash_createdAt (hf : ApiKey → String) (k : ApiKey) :
    (setHash hf k).createdAt = k.createdAt := rfl

theorem filter_map_comm {α β : Type} (g : α → β) (p : β → Bool) (q : α → Bool)
    (h : ∀ x, p (g x) = q x) (l : List α) :
    (l.map g).filter p = (l.filter q).map g := by
  induction l with
  | nil => rfl
  | cons x xs ih =>
    simp only [List.map_cons, List.filter_cons, h x]
    cases hq : q x <;> simp [hq, ih]

theorem find?_map_comm {α β : Type} (g : α → β) (p : β → Bool) (q : α → Bool)
    (h : ∀ x, p (g x) = q x) (l : List α) :
    (l.map g).find? p = (l.find? q).map g := by
  induction l with
  | nil => rfl
  | cons x xs ih =>
    simp only [List.map_cons, List.find?_cons, h x]
    cases hq : q x <;> simp [hq, ih]

theorem insertByCreated_setHash (hf : ApiKey → String) (k : ApiKey) (l : List ApiKey) :
    insertByCreated (setHash hf k) (l.map (setHash hf)) =
      (insertByCreated k l).map (setHash hf) := by
  induction l with
  | nil => rfl
  | cons x xs ih =>
    simp only [List.map_cons, insertByCreated, setHash_createdAt]
    by_cases hlt : x.createdAt < k.createdAt
    · simp [hlt]
    · simp [hlt, ih]

theorem sortByCreatedDesc_setHash (hf : ApiKey → String) (l : List ApiKey) :
    sortByCreatedDesc (l.map (setHash hf)) = (sortByCreatedDesc l).map (setHash hf) := by
  induction l with
  | nil => rfl
  | cons x xs ih =>
    simp only [sortByCreatedDesc, List.map_cons, List.foldr_cons] at *
    rw [ih, insertByCreated_setHash]

/-! Claim theorems -/

/-- C1: every key produced by issuance starts with `kvr_`, yet the
extraction rule recognizes none of them: presented in `X-API-Key` the
request falls through to the JWT branch and is rejected as having no
credential at all (not as an invalid API key), and presented as a Bearer
token it is handed to the JWT verifier and rejected as an invalid token —
`validateApiKey`'s `Invalid API key` answer is unreachable for issued
keys. -/
theorem c1_issued_keys_unrecognized :
    (∀ s : String, jsStartsWith (generateApiKey s) "kvr_" = true) ∧
    (∀ (s : String) (o : Option String),
      extractApiKey ⟨some (generateApiKey s), none, o⟩ = none) ∧
    (∀ (s ip : String) (now : Nat) (scope resourceId : Option String)
        (hashFn : String → String) (byHash : String → Option ApiKey)
        (findUser : String → Option HUser)
        (verifyTok : String → Except String LocalClaims),
      authenticateHybrid scope resourceId ⟨some (generateApiKey s), none, none⟩
          hashFn byHash findUser verifyTok now ip =
        .reject 401 "No authentication provided. Use X-API-Key header or Bearer token.") ∧
    (∀ (s ip e : String) (now : Nat) (scope resourceId : Option String)
        (hashFn : String → String) (byHash : String → Option ApiKey)
        (findUser : String → Option HUser),
      authenticateHybrid scope resourceId ⟨none, some ("Bearer " ++ generateApiKey s), none⟩
          hashFn byHash findUser (fun _ => .error e) now ip =
        .reject 401 "Invalid or expired token") := by
  refine ⟨?_, extractApiKey_kvr_header, ?_, ?_⟩
  · intro s
    simp [jsStartsWith, generateApiKey, data_kvr_append, List.isPrefixOf]
  · intro s ip now scope resourceId hashFn byHash findUser verifyTok
    simp [authenticateHybrid, extractApiKey_kvr_header]
  · intro s ip e now scope resourceId hashFn byHash findUser
    simp [authenticateHybrid, extractApiKey_kvr_bearer, bearer_startsWith]

/-- C2 (counterexample): a JWT request whose token carries primary org
`orgA` and an EMPTY accessible org-id list, with header
`X-Organization-Id: orgB`, is NOT rejected with 403 — the membership check
is skipped because the list is empty, and the request proceeds with
effective org `orgA` (the header is silently ignored). -/
theorem c2_empty_orgids_counterexample :
    authenticateHybrid none none ⟨none, some ("Bearer " ++ "x.y.z"), some "orgB"⟩
        (fun k => k) (fun _ => none) (fun _ => none)
        (fun _ => .ok ⟨some "u1", none, some "u1@example.com", none, none,
          some "ADMIN", none, none, some "orgA", some [], some "OWNER"⟩)
        0 "127.0.0.1" =
      .okJwt
        { id := some "u1", email := some "u1@example.com", fullName := none,
          role := some "ADMIN", roles := ["ADMIN"], perfis := [],
          orgId := some "orgA", orgIds := [], orgRole := some "OWNER" } := by
  rfl

/-- C2 (amended): on the JWT branch, when the request names a target
organization, the 403 check applies only when the token's accessible org-id
list is non-empty: a non-member then gets 403, a member proceeds with the
effective org equal to the requested one; when the list is empty the check
is skipped and the request proceeds with the effective org equal to the
token's primary org. -/
theorem c2_org_cross_check (scope resourceId : Option String) (req : HybridReq)
    (hashFn : String → String) (byHash : String → Option ApiKey)
    (findUser : String → Option HUser)
    (verifyTok : String → Except String LocalClaims) (now : Nat) (ip : String)
    (tok : String) (d : LocalClaims) (ro : String)
    (hExt : extractApiKey req = none)
    (hAuth : req.authorization = some ("Bearer " ++ tok))
    (hTok : verifyTok tok = .ok d)
    (hOrg : jsHeader req.xOrganizationId = some ro) :
    (∀ l, d.orgIds = some l → ro ∉ l →
      authenticateHybrid scope resourceId req hashFn byHash findUser verifyTok now ip =
        if l = [] then
          .okJwt (hybridJwtUserCore d (jsOrOpt d.userId d.id) l d.orgId)
        else .reject 403 "Access denied to requested organization") ∧
    (∀ l, d.orgIds = some l → ro ∈ l →
      authenticateHybrid scope resourceId req hashFn byHash findUser verifyTok now ip =
        .okJwt (hybridJwtUserCore d (jsOrOpt d.userId d.id) l (some ro))) := by
  constructor
  · intro l hl hnotin
    by_cases hnil : l = []
    · subst hnil
      simp [authenticateHybrid, hExt, hAuth, bearer_startsWith, jsDrop_bearer,
        hTok, hybridJwtUser, hOrg, hl]
    · simp [authenticateHybrid, hExt, hAuth, bearer_startsWith, jsDrop_bearer,
        hTok, hybridJwtUser, hOrg, hl, hnil, hnotin]
  · intro l hl hmem
    have hnil : l ≠ [] := by
      intro h; subst h; simp at hmem
    simp [authenticateHybrid, hExt, hAuth, bearer_startsWith, jsDrop_bearer,
      hTok, hybridJwtUser, hOrg, hl, hnil, hmem]

/-- C2 witness: with accessible list `[orgC]` and requested org `orgB` the
request is rejected 403; with requested org `orgC` it proceeds with
effective org `orgC`. -/
theorem c2_org_cross_check_witness :
    authenticateHybrid none none ⟨none, some ("Bearer " ++ "x.y.z"), some "orgB"⟩
        (fun k => k) (fun _ => none) (fun _ => none)
        (fun _ => .ok ⟨some "u1", none, some "u1@example.com", none, none,
          some "ADMIN", none, none, some "orgA", some ["orgC"], some "OWNER"⟩)
        0 "127.0.0.1" =
      .reject 403 "Access denied to requested organization" ∧
    authenticateHybrid none none ⟨none, some ("Bearer " ++ "x.y.z"), some "orgC"⟩
        (fun k => k) (fun _ => none) (fun _ => none)
        (fun _ => .ok ⟨some "u1", none, some "u1@example.com", none, none,
          some "ADMIN", none, none, some "orgA", some ["orgC"], some "OWNER"⟩)
        0 "127.0.0.1" =
      .okJwt
        (hybridJwtUserCore
          ⟨some "u1", none, some "u1@example.com", none, none,
            some "ADMIN", none, none, some "orgA", some ["orgC"], some "OWNER"⟩
          (some "u1") ["orgC"] (some "orgC")) := by
  constructor
  · have h := (c2_org_cross_check none none
      ⟨none, some ("Bearer " ++ "x.y.z"), some "orgB"⟩
      (fun k => k) (fun _ => none) (fun _ => none)
      (fun _ => .ok ⟨some "u1", none, some "u1@example.com", none, none,
        some "ADMIN", none, none, some "orgA", some ["orgC"], some "OWNER"⟩)
      0 "127.0.0.1" "x.y.z"
      ⟨some "u1", none, some "u1@example.com", none, none,
        some "ADMIN", none, none, some "orgA", some ["orgC"], some "OWNER"⟩
      "orgB" rfl rfl rfl rfl).1 ["orgC"] rfl (by decide)
    simpa using h
  · exact (c2_org_cross_check none none
      ⟨none, some ("Bearer " ++ "x.y.z"), some "orgC"⟩
      (fun k => k) (fun _ => none) (fun _ => none)
      (fun _ => .ok ⟨some "u1", none, some "u1@example.com", none, none,
        some "ADMIN", none, none, some "orgA", some ["orgC"], some "OWNER"⟩)
      0 "127.0.0.1" "x.y.z"
      ⟨some "u1", none, some "u1@example.com", none, none,
        some "ADMIN", none, none, some "orgA", some ["orgC"], some "OWNER"⟩
      "orgC" rfl rfl rfl rfl).2 ["orgC"] rfl (by decide)

/-- C4 (counterexample): a token whose issuer does not match but whose
audience claim is the scalar string equal to the configured audience is NOT
classified as external by `isTahToken`, although the claim's rule — issuer
match OR audience (scalar or list) containing the configured value — says it
must be. -/
theorem c4_scalar_audience_counterexample :
    isTahToken ⟨"https://tah.yourdomain.com", "kvr"⟩
        (some ⟨some "other-issuer", AudClaim.str "kvr"⟩) = false ∧
    claimLooksExternal ⟨"https://tah.yourdomain.com", "kvr"⟩
        (some ⟨some "other-issuer", AudClaim.str "kvr"⟩) = true := by
  decide

/-- C4 (amended): `isTahToken` returns true exactly when decoding succeeded
and the payload's issuer equals the configured issuer, or the audience claim
is an ARRAY containing the configured audience; a scalar audience string is
never recognized, and decoding failure yields false (the function is total,
hence never raises). -/
theorem c4_classifier_characterization (cfg : TahConfig) (d : Option TahPayload) :
    isTahToken cfg d = true ↔
      ∃ p, d = some p ∧
        (p.iss = some cfg.issuer ∨ ∃ l, p.aud = AudClaim.arr l ∧ cfg.audience ∈ l) := by
  cases d with
  | none => simp [isTahToken]
  | some p =>
    by_cases hiss : p.iss = some cfg.issuer
    · simp [isTahToken, hiss]
    · cases haud : p.aud with
      | undef => simp [isTahToken, hiss, haud]
      | str s => simp [isTahToken, hiss, haud]
      | arr l =>
        simp [isTahToken, hiss, haud, List.contains, List.elem_iff]

/-- C6 (counterexample): the role mapping is NOT idempotent for every
string.  The long s `ſ` (U+017F) is already lower-case, so `ſysadmin`
misses the table and is returned upper-cased as `SYSADMIN` (JavaScript
upper-cases `ſ` to `S`); mapping that result again now hits the table key
`sysadmin` and yields `ADMIN` — so mapping twice differs from mapping
once. -/
theorem c6_unicode_counterexample :
    mapTahRole (ofStr "ſysadmin") = ofStr "SYSADMIN" ∧
    mapTahRole (mapTahRole (ofStr "ſysadmin")) = ofStr "ADMIN" ∧
    ofStr "ADMIN" ≠ ofStr "SYSADMIN" := by
  decide

/-- C6 (amended): the role mapping is total; it is idempotent for every
ASCII string (on ASCII the JavaScript case mappings are exactly the 32-code
shifts, and upper-casing can never newly hit the lower-case table — unlike
for non-ASCII input such as `ſysadmin`); `administrador`, `Administrador`
and `ADMINISTRADOR` all map to `ADMIN` (case-insensitivity after trimming);
an already-mapped role maps to itself; and every role whose normalized form
is absent from the table is returned upper-cased, never dropped. -/
theorem c6_role_mapping :
    (∀ r : List Nat, asciiStr r = true → mapTahRole (mapTahRole r) = mapTahRole r) ∧
    mapTahRole (ofStr "administrador") = ofStr "ADMIN" ∧
    mapTahRole (ofStr "Administrador") = ofStr "ADMIN" ∧
    mapTahRole (ofStr "ADMINISTRADOR") = ofStr "ADMIN" ∧
    mapTahRole (ofStr "ADMIN") = ofStr "ADMIN" ∧
    (∀ r : List Nat, r ≠ [] →
      tableLookup TAH_ROLE_MAPPING (trimJs (lowerJs r)) = none →
      mapTahRole r = upperJs r) := by
  refine ⟨?_, by decide, by decide, by decide, by decide, ?_⟩
  · intro r hr
    have hA : ∀ n ∈ r, n < 128 := by
      intro n hn
      have := List.all_eq_true.mp hr n hn
      simpa using this
    by_cases h0 : r = []
    · subst h0; decide
    · cases hl : tableLookup TAH_ROLE_MAPPING (trimJs (lowerJs r)) with
      | some v =>
        simp only [mapTahRole, if_neg h0, hl]
        obtain ⟨key, hk⟩ := tableLookup_mem hl
        exact mapTahRole_table_values (key, v) hk
      | none =>
        simp only [mapTahRole, if_neg h0, hl]
        have hne := upperJs_ne_nil r h0
        have hl2 : tableLookup TAH_ROLE_MAPPING (trimJs (lowerJs (upperJs r))) = none := by
          rw [lowerJs_upperJs_ascii r hA]; exact hl
        simp only [mapTahRole, if_neg hne, hl2]
        exact upperJs_upperJs_ascii r hA
  · intro r h0 hl
    simp only [mapTahRole, if_neg h0, hl]

/-- C6 witness: the ASCII role `Developer` maps idempotently, and the
unmapped ASCII role `auditor` is returned upper-cased. -/
theorem c6_role_mapping_witness :
    (asciiStr (ofStr "Developer") = true ∧
      mapTahRole (mapTahRole (ofStr "Developer")) = mapTahRole (ofStr "Developer")) ∧
    ((ofStr "auditor" ≠ [] ∧
      tableLookup TAH_ROLE_MAPPING (trimJs (lowerJs (ofStr "auditor"))) = none) ∧
      mapTahRole (ofStr "auditor") = upperJs (ofStr "auditor")) :=
  ⟨⟨by decide, c6_role_mapping.1 (ofStr "Developer") (by decide)⟩,
   ⟨⟨by decide, by decide⟩,
    c6_role_mapping.2.2.2.2.2 (ofStr "auditor") (by decide) (by decide)⟩⟩

/-- C5: the JWKS resolver (a) performs no fetch and returns the cached key
set on any call within the TTL after a successful fetch; (b) when the fetch
fails and a populated (possibly expired) cache exists, resolves the key id
against the stale cache instead of raising; and (c) returns the fetch error
only when no cache has ever been populated. -/
theorem c5_jwks_resolver :
    (∀ (st : JwksState) (c : Jwks) (now ttl : Nat) (fetched : Except String Jwks),
      st.cache = some c → now < st.expiry →
      fetchJwks fetched ttl now st = (.ok c, st, false)) ∧
    (∀ (st : JwksState) (c : Jwks) (now ttl : Nat) (e kid : String) (jk : Jwk),
      st.cache = some c →
      c.keys.find? (fun k => k.kid == kid) = some jk →
      (getSigningKey none kid (.error e) ttl now st).1 = jwkToPem jk) ∧
    (∀ (st : JwksState) (now ttl : Nat) (fetched : Except String Jwks) (e : String),
      (fetchJwks fetched ttl now st).1 = .error e → st.cache = none) := by
  refine ⟨?_, ?_, ?_⟩
  · intro st c now ttl fetched hc hlt
    simp [fetchJwks, hc, hlt]
  · intro st c now ttl e kid jk hc hfind
    by_cases hlt : now < st.expiry <;>
      simp [getSigningKey, fetchJwks, fetchJwksGo, hc, hlt, hfind]
  · intro st now ttl fetched e h
    cases hc : st.cache with
    | none => rfl
    | some c =>
      exfalso
      by_cases hlt : now < st.expiry
      · simp [fetchJwks, hc, hlt] at h
      · cases fetched <;> simp [fetchJwks, fetchJwksGo, hc, hlt] at h

/-- C5 witness: a one-key cache at expiry 1000 is served without a fetch at
time 500; at time 2000 with the fetch failing, the stale cache still
resolves the key; and the fetch error surfaces only from an empty cache. -/
theorem c5_jwks_resolver_witness :
    fetchJwks (Except.error "down") 3600 500
        ⟨some ⟨[⟨"kid1", ["certA"], "RSA", none, none⟩]⟩, 1000⟩ =
      (Except.ok ⟨[⟨"kid1", ["certA"], "RSA", none, none⟩]⟩,
        ⟨some ⟨[⟨"kid1", ["certA"], "RSA", none, none⟩]⟩, 1000⟩, false) ∧
    (getSigningKey none "kid1" (Except.error "down") 3600 2000
        ⟨some ⟨[⟨"kid1", ["certA"], "RSA", none, none⟩]⟩, 1000⟩).1 =
      jwkToPem ⟨"kid1", ["certA"], "RSA", none, none⟩ ∧
    (⟨none, 0⟩ : JwksState).cache = none :=
  ⟨c5_jwks_resolver.1 _ _ _ _ _ rfl (by decide),
   c5_jwks_resolver.2.1 _ _ _ _ _ _ _ rfl (by decide),
   c5_jwks_resolver.2.2 ⟨none, 0⟩ 5 3600 (Except.error "down") "down" rfl⟩

/-- C8: `validateLocalToken` always tags the principal with authSource
`local`, but a valid token whose `roles` claim is the empty array yields an
EMPTY role list — the `['USER']` default is skipped because a present array
is truthy in JavaScript even when empty, contradicting the claimed
non-empty guarantee. -/
theorem c8_local_validator_empty_roles :
    (∀ d : LocalClaims, (localUserOf d).authSource = "local") ∧
    (∃ u : UserCtx,
      validateLocalToken
        (fun _ => .ok ⟨some "u1", none, some "u1@example.com", some "User One", none,
          none, some [], none, none, none, none⟩) "valid.signed.jwt" = .ok u ∧
      u.roles = [] ∧ u.authSource = "local") := by
  refine ⟨fun d => rfl, ⟨_, rfl, rfl, rfl⟩⟩

/-- C10: with a Bearer token present, the outcome of `authenticate` is
exactly the validator's verdict — independent of the dev-bypass flag, and
401 on a failing validator even with the bypass enabled; `optionalAuth`
likewise never attaches the dev-bypass principal when a token is present. -/
theorem c10_dev_bypass_requires_no_token :
    (∀ (tE lE : Bool) (isTah : String → Bool)
        (vTah : String → Except String UserCtx)
        (verify : String → Except String LocalClaims) (devU : UserCtx) (t : String),
      authenticate tE lE isTah vTah verify true devU (some ("Bearer " ++ t)) =
        authenticate tE lE isTah vTah verify false devU (some ("Bearer " ++ t))) ∧
    (∀ (tE lE : Bool) (isTah : String → Bool)
        (vTah : String → Except String UserCtx)
        (verify : String → Except String LocalClaims)
        (bE : Bool) (devU : UserCtx) (t : String),
      authenticate tE lE isTah vTah verify bE devU (some ("Bearer " ++ t)) =
        match validateToken tE lE isTah vTah verify t with
        | .ok u => .okUser u
        | .error _ => .halt 401 "Invalid or expired token") ∧
    (∀ (bE : Bool) (devU : UserCtx) (t e : String),
      authenticate false true (fun _ => false) (fun _ => .error e) (fun _ => .error e)
        bE devU (some ("Bearer " ++ t)) = .halt 401 "Invalid or expired token") ∧
    (∀ (tE lE : Bool) (isTah : String → Bool)
        (vTah : String → Except String UserCtx)
        (verify : String → Except String LocalClaims)
        (bE : Bool) (devU : UserCtx) (t : String),
      optionalAuth tE lE isTah vTah verify bE devU (some ("Bearer " ++ t)) =
        match validateToken tE lE isTah vTah verify t with
        | .ok u => some u
        | .error _ => none) := by
  refine ⟨?_, ?_, ?_, ?_⟩
  · intro tE lE isTah vTah verify devU t
    simp [authenticate, extractToken_bearer]
  · intro tE lE isTah vTah verify bE devU t
    simp [authenticate, extractToken_bearer]
  · intro bE devU t e
    simp [authenticate, extractToken_bearer, validateToken, validateLocalToken,
      Except.map]
  · intro tE lE isTah vTah verify bE devU t
    simp [optionalAuth, extractToken_bearer]

/-- C3: for a key with rate limit 5 and a fresh window (reset instant in
the future), five validate-then-record-usage rounds at the same instant all
validate successfully, and the sixth validation in the same window fails
with `Rate limit exceeded` and the structured `rateLimited = true` flag;
and any validation performed after the stored reset instant has passed
resets the usage counter to 0, advances the reset instant one hour past
`now`, and succeeds when the other checks pass. -/
theorem c3_rate_limit_window :
    (∀ (k : ApiKey) (now t : Nat) (ip : String),
      k.isActive = true → k.expiresAt = none →
      k.rateLimitReset = some t → now < t →
      k.rateLimit = 5 → k.rateLimitUsed = 0 →
      (validateApiKeyRec k none none none now).1.valid = true ∧
      (validateApiKeyRec (usageRound now ip k) none none none now).1.valid = true ∧
      (validateApiKeyRec (usageRound now ip (usageRound now ip k))
          none none none now).1.valid = true ∧
      (validateApiKeyRec (usageRound now ip (usageRound now ip (usageRound now ip k)))
          none none none now).1.valid = true ∧
      (validateApiKeyRec (usageRound now ip (usageRound now ip (usageRound now ip
          (usageRound now ip k)))) none none none now).1.valid = true ∧
      (validateApiKeyRec (usageRound now ip (usageRound now ip (usageRound now ip
          (usageRound now ip (usageRound now ip k))))) none none none now).1 =
        ⟨false, some "Rate limit exceeded", true⟩) ∧
    (∀ (k : ApiKey) (now t : Nat),
      k.isActive = true → k.expiresAt = none →
      k.rateLimitReset = some t → t < now → 0 < k.rateLimit →
      validateApiKeyRec k none none none now =
        (⟨true, none, false⟩,
          { k with rateLimitUsed := 0, rateLimitReset := some (now + 3600000) })) := by
  constructor
  · intro k now t ip hA hE hR hlt hL hU
    have h0 : k.rateLimitUsed < k.rateLimit := by omega
    obtain ⟨a1, e1, r1, u1, l1⟩ := usageRound_props k now t ip hA hE hR hlt h0
    have h1 : (usageRound now ip k).rateLimitUsed < (usageRound now ip k).rateLimit := by
      rw [u1, l1]; omega
    obtain ⟨a2, e2, r2, u2, l2⟩ := usageRound_props _ now t ip a1 e1 r1 hlt h1
    have h2 : (usageRound now ip (usageRound now ip k)).rateLimitUsed <
        (usageRound now ip (usageRound now ip k)).rateLimit := by
      rw [u2, u1, l2, l1]; omega
    obtain ⟨a3, e3, r3, u3, l3⟩ := usageRound_props _ now t ip a2 e2 r2 hlt h2
    have h3 : (usageRound now ip (usageRound now ip (usageRound now ip k))).rateLimitUsed <
        (usageRound now ip (usageRound now ip (usageRound now ip k))).rateLimit := by
      rw [u3, u2, u1, l3, l2, l1]; omega
    obtain ⟨a4, e4, r4, u4, l4⟩ := usageRound_props _ now t ip a3 e3 r3 hlt h3
    have h4 : (usageRound now ip (usageRound now ip (usageRound now ip
        (usageRound now ip k)))).rateLimitUsed <
        (usageRound now ip (usageRound now ip (usageRound now ip
          (usageRound now ip k)))).rateLimit := by
      rw [u4, u3, u2, u1, l4, l3, l2, l1]; omega
    obtain ⟨a5, e5, r5, u5, l5⟩ := usageRound_props _ now t ip a4 e4 r4 hlt h4
    have h5 : (usageRound now ip (usageRound now ip (usageRound now ip
        (usageRound now ip (usageRound now ip k))))).rateLimit ≤
        (usageRound now ip (usageRound now ip (usageRound now ip
          (usageRound now ip (usageRound now ip k))))).rateLimitUsed := by
      rw [u5, u4, u3, u2, u1, l5, l4, l3, l2, l1]; omega
    refine ⟨?_, ?_, ?_, ?_, ?_, ?_⟩
    · rw [validateApiKeyRec_pass k now t hA hE hR hlt h0]
    · rw [validateApiKeyRec_pass _ now t a1 e1 r1 hlt h1]
    · rw [validateApiKeyRec_pass _ now t a2 e2 r2 hlt h2]
    · rw [validateApiKeyRec_pass _ now t a3 e3 r3 hlt h3]
    · rw [validateApiKeyRec_pass _ now t a4 e4 r4 hlt h4]
    · rw [validateApiKeyRec_limit _ now t a5 e5 r5 hlt h5]
  · intro k now t hA hE hR hlt hpos
    exact validateApiKeyRec_reset k now t hA hE hR hlt hpos

/-- C3 witness: a concrete key with limit 5 and counter 0 in a live window
is exhausted by five usage rounds and rejected on the sixth validation; the
same key with an elapsed window is reset and validates successfully. -/
theorem c3_rate_limit_window_witness :
    (validateApiKeyRec (usageRound 500 "1.2.3.4" (usageRound 500 "1.2.3.4"
        (usageRound 500 "1.2.3.4" (usageRound 500 "1.2.3.4" (usageRound 500 "1.2.3.4"
          (⟨"id1", "u1", none, "k", none, "hashv", "kvr_12345678", ["resources:read"],
            [], [], 5, 0, some 1000, 0, none, none, none, true, 0, 0⟩ : ApiKey))))))
        none none none 500).1 =
      ⟨false, some "Rate limit exceeded", true⟩ ∧
    validateApiKeyRec
        (⟨"id1", "u1", none, "k", none, "hashv", "kvr_12345678", ["resources:read"],
          [], [], 5, 3, some 100, 0, none, none, none, true, 0, 0⟩ : ApiKey)
        none none none 500 =
      (⟨true, none, false⟩,
        { (⟨"id1", "u1", none, "k", none, "hashv", "kvr_12345678", ["resources:read"],
            [], [], 5, 3, some 100, 0, none, none, none, true, 0, 0⟩ : ApiKey) with
          rateLimitUsed := 0, rateLimitReset := some (500 + 3600000) }) :=
  ⟨(c3_rate_limit_window.1
      ⟨"id1", "u1", none, "k", none, "hashv", "kvr_12345678", ["resources:read"],
        [], [], 5, 0, some 1000, 0, none, none, none, true, 0, 0⟩
      500 1000 "1.2.3.4" rfl rfl rfl (by decide) rfl rfl).2.2.2.2.2,
   c3_rate_limit_window.2
      ⟨"id1", "u1", none, "k", none, "hashv", "kvr_12345678", ["resources:read"],
        [], [], 5, 3, some 100, 0, none, none, none, true, 0, 0⟩
      500 100 rfl rfl rfl (by decide) (by decide)⟩

/-- C9: the list, get-by-id and stats handlers never read the stored
`keyHash`: rewriting the hash of every key in the store by an arbitrary
function leaves all three responses unchanged, so two stores differing only
in stored hashes are indistinguishable through these endpoints. -/
theorem c9_responses_ignore_keyhash :
    (∀ (ctx : TenantCtx) (inc : Bool) (hf : ApiKey → String) (s : List ApiKey),
      listApiKeys ctx inc (s.map (setHash hf)) = listApiKeys ctx inc s) ∧
    (∀ (ctx : TenantCtx) (id : String) (hf : ApiKey → String) (s : List ApiKey),
      getApiKey ctx id (s.map (setHash hf)) = getApiKey ctx id s) ∧
    (∀ (ctx : TenantCtx) (id : String) (now : Nat) (hf : ApiKey → String)
        (s : List ApiKey),
      statsApiKey ctx id now (s.map (setHash hf)) = statsApiKey ctx id now s) := by
  refine ⟨?_, ?_, ?_⟩
  · intro ctx inc hf s
    unfold listApiKeys
    rw [filter_map_comm (setHash hf) _
          (fun k => tenantMatch ctx k && (inc || k.isActive)) (fun x => rfl) s,
        sortByCreatedDesc_setHash, List.map_map]
    rfl
  · intro ctx id hf s
    unfold getApiKey
    rw [find?_map_comm (setHash hf) _
          (fun k => k.id == id && tenantMatch ctx k) (fun x => rfl) s]
    cases s.find? (fun k => k.id == id && tenantMatch ctx k) <;> rfl
  · intro ctx id now hf s
    unfold statsApiKey
    rw [find?_map_comm (setHash hf) _
          (fun k => k.id == id && tenantMatch ctx k) (fun x => rfl) s]
    cases s.find? (fun k => k.id == id && tenantMatch ctx k) <;> rfl

/-- C7 (counterexample): under the TAH-route guard `checkTahPermission`, the
permission `other:*` — which matches none of the patterns the claim lists
for feature `workflows.list`, action `read` — nevertheless grants access,
because the guard splits each permission at ':' and accepts any entry whose
action component is the wildcard. -/
theorem c7_other_wildcard_counterexample :
    checkTahPermission "tah" ["other:*"] "workflows.list" "read" = true ∧
    claimPermAllows "tah" ["other:*"] "workflows.list" "read" = false := by
  decide

/-- C7 (amended): the claim's characterization — pass exactly when the
permission set contains `*`, `*:*`, `featureId:action`, `featureId:*`,
`category:action` or `category:*`, with every other source passing
unconditionally — holds for the middleware guard `checkPermission` (but not
for the TAH-route guard `checkTahPermission`, per the counterexample). -/
theorem c7_middleware_guard_exact (src : String) (ps : List String)
    (featureId action : String) :
    checkPermission src ps featureId action = claimPermAllows src ps featureId action := by
  unfold checkPermission claimPermAllows
  split_ifs with h
  · rfl
  · rw [show permMatchMw featureId action =
        (fun p =>
          p == "*" || p == "*:*" ||
          p == featureId ++ ":" ++ action ||
          p == featureId ++ ":*" ||
          p == categoryOf featureId ++ ":" ++ action ||
          p == categoryOf featureId ++ ":*") from
      funext fun p => by simp only [permMatchMw]; exact bool_or_perm _ _ _ _ _ _]

end KVR
